import Mathlib

/-
Verification of the TinyHook package registry (src/tinyhook.py).

The development shallowly embeds the registry store primitives
(init_db, read_db, write_db, is_installed) and the module-level
command dispatch (hook, run, list, remove) of tinyhook.py.

Modelling conventions:
  * A Python dict loaded from the registry JSON file is an association
    list with string keys (Python dicts preserve insertion order;
    update on a fresh key appends, pop removes).
  * The on-disk registry file is a FileContent value: missing (open
    raises FileNotFoundError), unreadable (open or read raises an
    OS-level error such as PermissionError), invalid (readable text
    that json.load rejects with JSONDecodeError), or valid (a JSON
    object of well-formed records, as described by the data model).
  * Console output is the list of printed lines, in order.
  * An uncaught Python exception is Except.error; code that cannot
    raise is a plain function.
  * The werr parameter of WriteErr type says how the underlying file
    write performed by write_db behaves: success, a failure of the open
    call before the file is touched, or a failure during json.dump
    after open has truncated the file; apostrophes and braces inside
    message strings are written with \x27 and \x7b escapes.
-/

namespace TinyHook

/-- Python exceptions that the embedded code can raise or catch. -/
inductive PyExc where
  | fileNotFound
  | jsonDecodeError
  | osError
deriving DecidableEq, Repr

/-- One value of the registry object: the fields of an installed-package
record, all strings, as written by the hook command. -/
structure Record where
  version : String
  installed_at : String
  source_type : String
  source_value : String
  install_path : String
deriving DecidableEq, Repr

/-- A parsed registry JSON object: insertion-ordered mapping from package
name to record, embedded as an association list. -/
abbrev Registry := List (String × Record)

/-- Python membership test `name in data` on a dict. -/
def dictContains (db : Registry) (k : String) : Bool :=
  db.any fun p => p.1 == k

/-- Python `data.update({k: v})`: replace in place when the key exists,
append otherwise. -/
def dictUpdate (db : Registry) (k : String) (v : Record) : Registry :=
  if dictContains db k then db.map (fun p => if p.1 == k then (k, v) else p)
  else db ++ [(k, v)]

/-- Python `data.pop(k)`: the dict with the entry for `k` removed. -/
def dictPop (db : Registry) (k : String) : Registry :=
  db.filter fun p => !(p.1 == k)

/-- Python `data[k]` as a partial lookup. -/
def dictGet (db : Registry) (k : String) : Option Record :=
  (db.find? fun p => p.1 == k).map Prod.snd

/-- State of the registry file on disk. -/
inductive FileContent where
  | missing
  | unreadable
  | invalid (raw : String)
  | valid (db : Registry)
deriving DecidableEq, Repr

/-- The observable state of one invocation: the registry file plus the
console lines printed so far. -/
structure World where
  registryFile : FileContent
  out : List String
deriving DecidableEq, Repr

/-- Append one printed line to the console. -/
def World.print (w : World) (line : String) : World :=
  ⟨w.registryFile, w.out ++ [line]⟩

/-- Effect of `open(loc, "r")` followed by `json.load`: the exception each
file state produces, or the parsed object. -/
def jsonLoadFile : FileContent → Except PyExc Registry
  | FileContent.missing => Except.error PyExc.fileNotFound
  | FileContent.unreadable => Except.error PyExc.osError
  | FileContent.invalid _ => Except.error PyExc.jsonDecodeError
  | FileContent.valid db => Except.ok db

/-- Source constant INSTALLED_JSON. -/
def INSTALLED_JSON : String := "data/installed.json"

/-- Source init_db: create the file containing an empty object when
os.path.exists is false, otherwise leave it untouched. -/
def init_db : FileContent → FileContent
  | FileContent.missing => FileContent.valid []
  | f => f

/-- What read_db can return: a parsed JSON object, or the Python value
None that the bare `except` path falls through to. -/
inductive ReadResult where
  | obj (db : Registry)
  | pyNone
deriving DecidableEq, Repr

/-- Python `len` applied to a value read_db can return: the number of keys
of a dict, and no length at all for None (`len(None)` raises TypeError). -/
def ReadResult.pyLen : ReadResult → Option Nat
  | ReadResult.obj db => some db.length
  | ReadResult.pyNone => none

/-- The diagnostic read_db prints on its except path. -/
def readFailMsg (file_location : String) : String :=
  "File \x27" ++ file_location ++ "\x27 not found."

/-- Source read_db: return the parsed object; on any exception (missing,
unreadable, or invalid file) print the diagnostic and return None. -/
def read_db (file : FileContent) (file_location : String) : ReadResult × List String :=
  match jsonLoadFile file with
  | Except.ok db => (ReadResult.obj db, [])
  | Except.error _ => (ReadResult.pyNone, [readFailMsg file_location])

/-- How the underlying I/O of write_db behaves: success; a failure of
`open(file_location, "w")` raised before the file is touched; or a
failure raised during json.dump, after open has already truncated the
file, with `written` holding whatever prefix of the serialization
reached the disk. -/
inductive WriteErr where
  | ok
  | openFail
  | dumpFail (written : String)
deriving DecidableEq, Repr

/-- Source write_db: serialize `data` to the file at `file_location`,
catching every exception. The except branch prints "Data empty" when the
data argument is the Python value None and a not-found line when the
location argument is None; every call site in the repository passes a
dict and a string path, so a write failure with proper arguments prints
nothing. The file outcome follows the I/O: `open(None, "w")` raises
before touching any file, an openFail leaves the file untouched, and a
dumpFail leaves the truncated prefix written so far, which does not
parse back as the registry object (a proper prefix of the serialization
of a JSON object is never complete JSON). `json.dump(None)` succeeds
and writes the JSON literal null, a corner no call site reaches,
approximated here as non-registry content. -/
def write_db (data : Option Registry) (file_location : Option String) (werr : WriteErr)
    (file : FileContent) : FileContent × List String :=
  match file_location with
  | none =>
      (file, (if data.isNone then ["Data empty"] else []) ++ ["File \x27None\x27 not found"])
  | some _ =>
      match werr with
      | WriteErr.openFail =>
          (file, if data.isNone then ["Data empty"] else [])
      | WriteErr.dumpFail written =>
          (FileContent.invalid written, if data.isNone then ["Data empty"] else [])
      | WriteErr.ok =>
          match data with
          | some d => (FileContent.valid d, [])
          | none => (FileContent.invalid "null", [])

/-- Source is_installed: read and parse INSTALLED_JSON, treating exactly
FileNotFoundError and JSONDecodeError as an empty dict; any other
exception (an unreadable file) propagates. -/
def is_installed (package_name : String) (file : FileContent) : Except PyExc Bool :=
  match jsonLoadFile file with
  | Except.ok data => Except.ok (dictContains data package_name)
  | Except.error PyExc.fileNotFound => Except.ok (dictContains [] package_name)
  | Except.error PyExc.jsonDecodeError => Except.ok (dictContains [] package_name)
  | Except.error e => Except.error e

/-- The record the hook command constructs for a package name. -/
def hookRecord (package_name : String) : Record :=
  { version := "1.0"
    installed_at := "2025-11-04T12:00:00Z"
    source_type := "local_path"
    source_value := "/data/packages/" ++ package_name
    install_path := "data/packages/" ++ package_name }

/-- Module-level hook branch: a bare `open` plus `json.load` of
INSTALLED_JSON (errors propagate), then the is_installed guard, then the
dry-run check, else update and write_db, printing the confirmation
unless quiet. -/
def hookCmd (package_name : String) (dry_run quiet : Bool) (werr : WriteErr) (w : World) :
    Except PyExc World :=
  match jsonLoadFile w.registryFile with
  | Except.error e => Except.error e
  | Except.ok installed_data =>
    match is_installed package_name w.registryFile with
    | Except.error e => Except.error e
    | Except.ok true => Except.ok (w.print (package_name ++ " is already installed!"))
    | Except.ok false =>
      if dry_run then
        Except.ok (w.print ("[Dry Run] Would hook " ++ package_name))
      else
        let r := write_db (some (dictUpdate installed_data package_name (hookRecord package_name)))
          (some INSTALLED_JSON) werr w.registryFile
        let w2 : World := ⟨r.1, w.out ++ r.2⟩
        Except.ok (if quiet then w2 else w2.print ("Successfully hooked \x27" ++ package_name ++ "\x27!"))

/-- Module-level run branch: the is_installed guard (whose uncaught
exceptions propagate), then the dry-run message or the running message.
The source never consults the quiet flag in this branch. -/
def runCmd (package_name : String) (dry_run : Bool) (w : World) : Except PyExc World :=
  match is_installed package_name w.registryFile with
  | Except.error e => Except.error e
  | Except.ok false => Except.ok (w.print (package_name ++ " is not installed!"))
  | Except.ok true =>
    if dry_run then Except.ok (w.print ("[Dry Run] Would run " ++ package_name))
    else Except.ok (w.print ("Running " ++ package_name))

/-- One line of list output for a package entry. -/
def listLines (db : Registry) : List String :=
  db.map fun p => p.1 ++ " - version " ++ p.2.version

/-- Module-level list branch: read_db, then the falsy check (None or the
empty dict), then the dry-run message, else one line per entry. The
source never consults the quiet flag in this branch. -/
def listCmd (dry_run : Bool) (w : World) : World :=
  let r := read_db w.registryFile INSTALLED_JSON
  let w1 : World := ⟨w.registryFile, w.out ++ r.2⟩
  match r.1 with
  | ReadResult.pyNone => w1.print "No packages installed."
  | ReadResult.obj installed_data =>
    if installed_data.isEmpty then w1.print "No packages installed."
    else if dry_run then w1.print "[Dry Run] Would list packages and version"
    else ⟨w1.registryFile, w1.out ++ listLines installed_data⟩

/-- Module-level remove branch: read_db, the falsy check, then the branch
guarded by `dry_run and not quiet`, then the membership check, else pop
and write_db, printing the confirmation unless quiet. -/
def removeCmd (package_name : String) (dry_run quiet : Bool) (werr : WriteErr) (w : World) :
    World :=
  let r := read_db w.registryFile INSTALLED_JSON
  let w1 : World := ⟨w.registryFile, w.out ++ r.2⟩
  match r.1 with
  | ReadResult.pyNone => w1.print "No packages installed"
  | ReadResult.obj installed_data =>
    if installed_data.isEmpty then w1.print "No packages installed"
    else if dry_run && !quiet then w1.print ("[Dry Run] Would remove " ++ package_name)
    else if !(dictContains installed_data package_name) then
      w1.print ("Package \x27" ++ package_name ++ "\x27 is not found")
    else
      let r2 := write_db (some (dictPop installed_data package_name)) (some INSTALLED_JSON)
        werr w1.registryFile
      let w2 : World := ⟨r2.1, w1.out ++ r2.2⟩
      if quiet then w2 else w2.print ("Successfully removed " ++ package_name ++ " !")

/-- The four sub-commands of the dispatcher. -/
inductive Cmd where
  | hook (package_name : String)
  | run (package_name : String)
  | list
  | remove (package_name : String)
deriving DecidableEq, Repr

/-- The module-level command chain of tinyhook.py, given the parsed
arguments: dry_run and quiet are the parsed flags, werr says how the
underlying write behaves. list and remove cannot raise; hook and run can. -/
def dispatch : Cmd → Bool → Bool → WriteErr → World → Except PyExc World
  | Cmd.hook n, d, q, werr, w => hookCmd n d q werr w
  | Cmd.run n, d, _, _, w => runCmd n d w
  | Cmd.list, d, _, _, w => Except.ok (listCmd d w)
  | Cmd.remove n, d, q, werr, w => Except.ok (removeCmd n d q werr w)

/-- Modelled from the spec: the spec describes installed_at as set to the
current operation time, an environmental input that src/tinyhook.py
never reads (the hook branch stores a string literal). The parameter
`now` models the current operation time; the source ignores it. -/
def hookCmdAt (now : String) (package_name : String) (dry_run quiet : Bool)
    (werr : WriteErr) (w : World) : Except PyExc World :=
  hookCmd package_name dry_run quiet werr w

end TinyHook

namespace TinyHook

/-- A dict that does not contain a key has no entry with that key. -/
theorem dict_filter_eq_nil (db : Registry) (n : String)
    (h : dictContains db n = false) : db.filter (fun p => p.1 == n) = [] := by
  induction db with
  | nil => rfl
  | cons p t ih =>
    simp only [dictContains, List.any_cons, Bool.or_eq_false_iff] at h
    simp only [List.filter_cons, h.1, if_false]
    exact ih h.2

/-- Appending an entry for a key makes the dict contain that key. -/
theorem dictContains_append_single (db : Registry) (n : String) (r : Record) :
    dictContains (db ++ [(n, r)]) n = true := by
  simp [dictContains, List.any_append]

/-- Looking up a key that only the appended entry carries yields it. -/
theorem dictGet_append_single (db : Registry) (n : String) (r : Record)
    (h : dictContains db n = false) : dictGet (db ++ [(n, r)]) n = some r := by
  induction db with
  | nil => simp [dictGet, List.find?]
  | cons p t ih =>
    simp only [dictContains, List.any_cons, Bool.or_eq_false_iff] at h
    simp only [dictGet, List.cons_append, List.find?, h.1] at ih ⊢
    exact ih h.2

/-- Updating with a fresh key appends the entry. -/
theorem dictUpdate_of_not_contains (db : Registry) (n : String) (r : Record)
    (h : dictContains db n = false) : dictUpdate db n r = db ++ [(n, r)] := by
  simp [dictUpdate, h]

end TinyHook

namespace TinyHook

/-- Claim C1 (violated by the code): with dry_run and quiet both set, the
remove command skips its dry-run branch (guarded by `dry_run and not
quiet`), deletes a present package and writes the registry file, so
dry_run does not leave the file unchanged for every quiet value. -/
theorem c1_remove_dry_run_with_quiet_mutates :
    removeCmd "numpy" true true WriteErr.ok
        ⟨FileContent.valid [("numpy", hookRecord "numpy")], []⟩ =
      ⟨FileContent.valid [], []⟩
    ∧ FileContent.valid ([] : Registry) ≠
        FileContent.valid [("numpy", hookRecord "numpy")] := by
  exact ⟨rfl, by decide⟩

/-- Claim C2 (violated by the code): quiet does not suppress all non-error
output, and quiet does not win over dry_run. With both flags set, the
hook branch still prints its dry-run message, and the run branch prints
its running message even under quiet (the source never consults quiet
there). -/
theorem c2_quiet_does_not_suppress_output :
    hookCmd "beta" true true WriteErr.ok ⟨FileContent.valid [], []⟩ =
      Except.ok ⟨FileContent.valid [], ["[Dry Run] Would hook beta"]⟩
    ∧ dispatch (Cmd.run "numpy") false true WriteErr.ok
        ⟨FileContent.valid [("numpy", hookRecord "numpy")], []⟩ =
      Except.ok ⟨FileContent.valid [("numpy", hookRecord "numpy")], ["Running numpy"]⟩
    ∧ (["[Dry Run] Would hook beta"] : List String) ≠ [] := by
  exact ⟨rfl, rfl, by decide⟩

/-- Claim C3, counterexample to the stated sentinel shape: on a missing
file read_db returns the Python value None, which is not a one-element
collection (it has no length at all: `len(None)` raises), after printing
its diagnostic. -/
theorem c3_sentinel_is_none_not_a_collection :
    read_db FileContent.missing INSTALLED_JSON =
      (ReadResult.pyNone, [readFailMsg INSTALLED_JSON])
    ∧ ReadResult.pyLen (read_db FileContent.missing INSTALLED_JSON).1 ≠ some 1 := by
  exact ⟨rfl, by decide⟩

/-- Claim C3 as amended: for every path, on any load failure (file
missing, unreadable, or invalid JSON) read_db does not raise: it prints
the diagnostic naming the path and returns the Python value None, which
is not a mapping. -/
theorem c3_read_db_failure_prints_and_returns_none (file_location raw : String) :
    read_db FileContent.missing file_location =
      (ReadResult.pyNone, [readFailMsg file_location])
    ∧ read_db FileContent.unreadable file_location =
      (ReadResult.pyNone, [readFailMsg file_location])
    ∧ read_db (FileContent.invalid raw) file_location =
      (ReadResult.pyNone, [readFailMsg file_location])
    ∧ (∀ db : Registry, ReadResult.pyNone ≠ ReadResult.obj db) := by
  refine ⟨rfl, rfl, rfl, ?_⟩
  intro db h
  exact ReadResult.noConfusion h

/-- Claim C4, counterexample: the hook branch loads the registry with a
bare json.load, so on a malformed registry file the JSON parse error
propagates to the process boundary. -/
theorem c4_hook_propagates_on_malformed_json :
    dispatch (Cmd.hook "numpy") false false WriteErr.ok
        ⟨FileContent.invalid "\x7bnot json", []⟩ =
      Except.error PyExc.jsonDecodeError := by
  exact rfl

/-- Claim C4 as amended: on a malformed registry file the run, list and
remove commands propagate no exception, mutate nothing, and report an
outcome, for all flag values; only hook propagates the parse error. -/
theorem c4_run_list_remove_degrade_on_malformed_json
    (n raw : String) (d q : Bool) (werr : WriteErr) (out : List String) :
    dispatch (Cmd.run n) d q werr ⟨FileContent.invalid raw, out⟩ =
      Except.ok ⟨FileContent.invalid raw, out ++ [n ++ " is not installed!"]⟩
    ∧ dispatch Cmd.list d q werr ⟨FileContent.invalid raw, out⟩ =
      Except.ok ⟨FileContent.invalid raw,
        out ++ [readFailMsg INSTALLED_JSON, "No packages installed."]⟩
    ∧ dispatch (Cmd.remove n) d q werr ⟨FileContent.invalid raw, out⟩ =
      Except.ok ⟨FileContent.invalid raw,
        out ++ [readFailMsg INSTALLED_JSON, "No packages installed"]⟩ := by
  refine ⟨?_, ?_, ?_⟩ <;>
    simp [dispatch, runCmd, listCmd, removeCmd, is_installed, read_db, jsonLoadFile,
      World.print, dictContains]

end TinyHook

namespace TinyHook

/-- Claim C5, counterexample to the reporting part: an I/O failure during
write_db with a proper dict and a proper path (as at every call site) is
swallowed silently: no diagnostic line is emitted, whether open fails
before touching the file or json.dump fails after open has truncated
it and a prefix of the serialization was written. -/
theorem c5_write_failure_with_proper_args_is_silent :
    write_db (some [("numpy", hookRecord "numpy")]) (some INSTALLED_JSON) WriteErr.openFail
      (FileContent.valid []) = (FileContent.valid [], [])
    ∧ write_db (some [("numpy", hookRecord "numpy")]) (some INSTALLED_JSON)
        (WriteErr.dumpFail "\x7b\n  \"numpy\": ")
        (FileContent.valid []) = (FileContent.invalid "\x7b\n  \"numpy\": ", []) := by
  exact ⟨rfl, rfl⟩

/-- Claim C5 as amended: every failure during write_db is swallowed (the
function is total, never raises and never retries), and callers cannot
assume the write succeeded: a failure of open leaves the file untouched
while a failure during json.dump leaves the truncated prefix written so
far; a diagnostic is only emitted when an argument is the Python value
None, so with a proper dict and path the failure is silent. -/
theorem c5_write_db_swallows_failures
    (d : Registry) (l written : String) (dOpt : Option Registry) (werr : WriteErr)
    (f : FileContent) :
    write_db (some d) (some l) WriteErr.openFail f = (f, [])
    ∧ write_db (some d) (some l) (WriteErr.dumpFail written) f =
        (FileContent.invalid written, [])
    ∧ write_db dOpt none werr f =
        (f, (if dOpt.isNone then ["Data empty"] else []) ++ ["File \x27None\x27 not found"]) := by
  exact ⟨rfl, rfl, rfl⟩

/-- Claim C6, counterexample: on a file that exists but cannot be read
(an OS-level error such as PermissionError, distinct from the two caught
exception types) is_installed raises instead of returning false. -/
theorem c6_is_installed_raises_on_unreadable :
    is_installed "numpy" FileContent.unreadable = Except.error PyExc.osError := by
  exact rfl

/-- Claim C6 as amended: is_installed returns a boolean and never raises
when the registry file is missing or contains invalid JSON (both give
false through the empty-dict fallback), and on a readable valid file it
returns the membership test. -/
theorem c6_is_installed_false_on_missing_or_invalid (n raw : String) (db : Registry) :
    is_installed n FileContent.missing = Except.ok false
    ∧ is_installed n (FileContent.invalid raw) = Except.ok false
    ∧ is_installed n (FileContent.valid db) = Except.ok (dictContains db n) := by
  exact ⟨rfl, rfl, rfl⟩

/-- Claim C7, counterexample to the installed_at part: hooking a fresh
package while the current operation time is 2026-10-12T09:00:00Z stores
the fixed literal 2025-11-04T12:00:00Z, not the operation time. -/
theorem c7_installed_at_is_placeholder_not_operation_time :
    hookCmdAt "2026-10-12T09:00:00Z" "alpha" false false WriteErr.ok
        ⟨FileContent.valid [], []⟩ =
      Except.ok ⟨FileContent.valid [("alpha", hookRecord "alpha")],
        ["Successfully hooked \x27alpha\x27!"]⟩
    ∧ (hookRecord "alpha").installed_at = "2025-11-04T12:00:00Z"
    ∧ "2025-11-04T12:00:00Z" ≠ "2026-10-12T09:00:00Z" := by
  exact ⟨rfl, rfl, by decide⟩

/-- Claim C7 as amended: a non-dry-run hook of a not-installed name, at
any operation time, inserts and persists the record with version 1.0,
source_type local_path, source_value and install_path derived from the
name, and installed_at equal to the fixed placeholder literal
2025-11-04T12:00:00Z; afterwards the name is installed and the loaded
record is the constructed one. -/
theorem c7_hook_inserts_and_persists_record
    (now n : String) (db : Registry) (q : Bool) (out : List String)
    (h : dictContains db n = false) :
    hookCmdAt now n false q WriteErr.ok ⟨FileContent.valid db, out⟩ =
      Except.ok ⟨FileContent.valid (db ++ [(n, hookRecord n)]),
        out ++ (if q then [] else ["Successfully hooked \x27" ++ n ++ "\x27!"])⟩
    ∧ is_installed n (FileContent.valid (db ++ [(n, hookRecord n)])) = Except.ok true
    ∧ dictGet (db ++ [(n, hookRecord n)]) n = some (hookRecord n)
    ∧ (hookRecord n).version = "1.0"
    ∧ (hookRecord n).source_type = "local_path"
    ∧ (hookRecord n).source_value = "/data/packages/" ++ n
    ∧ (hookRecord n).install_path = "data/packages/" ++ n
    ∧ (hookRecord n).installed_at = "2025-11-04T12:00:00Z" := by
  refine ⟨?_, ?_, dictGet_append_single db n _ h, rfl, rfl, rfl, rfl, rfl⟩
  · cases q <;>
      simp [hookCmdAt, hookCmd, is_installed, jsonLoadFile, h, write_db,
        dictUpdate_of_not_contains db n _ h, World.print]
  · simp [is_installed, jsonLoadFile, dictContains_append_single]

/-- Claim C7 witness: the amended theorem applied to hooking alpha into
the empty registry at a concrete operation time. -/
theorem c7_hook_witness :
    dictContains [] "alpha" = false
    ∧ (hookCmdAt "2026-01-01T00:00:00Z" "alpha" false false WriteErr.ok
          ⟨FileContent.valid [], []⟩ =
        Except.ok ⟨FileContent.valid ([] ++ [("alpha", hookRecord "alpha")]),
          [] ++ (if false then [] else ["Successfully hooked \x27alpha\x27!"])⟩
      ∧ is_installed "alpha" (FileContent.valid ([] ++ [("alpha", hookRecord "alpha")])) =
          Except.ok true
      ∧ dictGet ([] ++ [("alpha", hookRecord "alpha")]) "alpha" = some (hookRecord "alpha")
      ∧ (hookRecord "alpha").version = "1.0"
      ∧ (hookRecord "alpha").source_type = "local_path"
      ∧ (hookRecord "alpha").source_value = "/data/packages/" ++ "alpha"
      ∧ (hookRecord "alpha").install_path = "data/packages/" ++ "alpha"
      ∧ (hookRecord "alpha").installed_at = "2025-11-04T12:00:00Z") :=
  ⟨rfl, c7_hook_inserts_and_persists_record "2026-01-01T00:00:00Z" "alpha" [] false [] rfl⟩

end TinyHook

namespace TinyHook

/-- Claim C8: init_db creates a file containing the empty mapping when no
file exists at the path, and leaves any existing file byte-for-byte
untouched whatever its content (unreadable, invalid, or valid). -/
theorem c8_init_db_create_or_untouched (f : FileContent)
    (h : f ≠ FileContent.missing) :
    init_db FileContent.missing = FileContent.valid [] ∧ init_db f = f := by
  refine ⟨rfl, ?_⟩
  cases f with
  | missing => exact absurd rfl h
  | unreadable => rfl
  | invalid raw => rfl
  | valid db => rfl

/-- Claim C8 witness: the theorem applied to an existing malformed file. -/
theorem c8_init_db_witness :
    FileContent.invalid "not json" ≠ FileContent.missing
    ∧ (init_db FileContent.missing = FileContent.valid []
      ∧ init_db (FileContent.invalid "not json") = FileContent.invalid "not json") :=
  ⟨by decide, c8_init_db_create_or_untouched (FileContent.invalid "not json") (by decide)⟩

/-- Claim C9: after a successful non-dry-run hook of a fresh name, a
second hook of the same name with any dry-run, quiet and write-failure
values prints the already-installed report and leaves the registry file
and its single entry for the name unchanged. -/
theorem c9_hook_idempotent_under_guard
    (n : String) (db : Registry) (q1 d2 q2 : Bool) (werr2 : WriteErr) (out : List String)
    (h : dictContains db n = false) :
    hookCmd n false q1 WriteErr.ok ⟨FileContent.valid db, out⟩ =
      Except.ok ⟨FileContent.valid (db ++ [(n, hookRecord n)]),
        out ++ (if q1 then [] else ["Successfully hooked \x27" ++ n ++ "\x27!"])⟩
    ∧ hookCmd n d2 q2 werr2
        ⟨FileContent.valid (db ++ [(n, hookRecord n)]),
          out ++ (if q1 then [] else ["Successfully hooked \x27" ++ n ++ "\x27!"])⟩ =
      Except.ok ⟨FileContent.valid (db ++ [(n, hookRecord n)]),
        (out ++ (if q1 then [] else ["Successfully hooked \x27" ++ n ++ "\x27!"]))
          ++ [n ++ " is already installed!"]⟩
    ∧ ((db ++ [(n, hookRecord n)]).filter fun p => p.1 == n).length = 1 := by
  refine ⟨?_, ?_, ?_⟩
  · cases q1 <;>
      simp [hookCmd, is_installed, jsonLoadFile, h, write_db,
        dictUpdate_of_not_contains db n _ h, World.print]
  · simp [hookCmd, is_installed, jsonLoadFile, dictContains_append_single, World.print]
  · simp [List.filter_append, dict_filter_eq_nil db n h, List.filter]

/-- Claim C9 witness: hooking alpha into the empty registry and hooking it
again with dry-run, quiet and a failing writer. -/
theorem c9_hook_idempotent_witness :
    dictContains [] "alpha" = false
    ∧ (hookCmd "alpha" false false WriteErr.ok ⟨FileContent.valid [], []⟩ =
        Except.ok ⟨FileContent.valid ([] ++ [("alpha", hookRecord "alpha")]),
          [] ++ (if false then [] else ["Successfully hooked \x27alpha\x27!"])⟩
      ∧ hookCmd "alpha" true true WriteErr.openFail
          ⟨FileContent.valid ([] ++ [("alpha", hookRecord "alpha")]),
            [] ++ (if false then [] else ["Successfully hooked \x27alpha\x27!"])⟩ =
        Except.ok ⟨FileContent.valid ([] ++ [("alpha", hookRecord "alpha")]),
          ([] ++ (if false then [] else ["Successfully hooked \x27alpha\x27!"]))
            ++ ["alpha" ++ " is already installed!"]⟩
      ∧ ((([] : Registry) ++ [("alpha", hookRecord "alpha")]).filter fun p => p.1 == "alpha").length = 1) :=
  ⟨rfl, c9_hook_idempotent_under_guard "alpha" [] false true true WriteErr.openFail [] rfl⟩

/-- Claim C10, counterexample to the indistinguishability part: on a
missing registry the console transcript of list carries the read_db
diagnostic line in addition to the no-packages report, so it differs
from the transcript on an empty registry. -/
theorem c10_failure_output_distinguishable_from_empty :
    dispatch Cmd.list false false WriteErr.ok ⟨FileContent.missing, []⟩ =
      Except.ok ⟨FileContent.missing,
        [readFailMsg INSTALLED_JSON, "No packages installed."]⟩
    ∧ dispatch Cmd.list false false WriteErr.ok ⟨FileContent.valid [], []⟩ =
      Except.ok ⟨FileContent.valid [], ["No packages installed."]⟩
    ∧ ([readFailMsg INSTALLED_JSON, "No packages installed."] : List String) ≠
        ["No packages installed."] := by
  exact ⟨rfl, rfl, by decide⟩

/-- Claim C10 as amended: on a missing or malformed registry file, list
and remove report the no-packages message after the read_db diagnostic,
mutate nothing and raise nothing, for all flag values; the command
branch behaves exactly as on an empty registry, whose transcript lacks
only the diagnostic line. -/
theorem c10_list_remove_report_no_packages_on_load_failure
    (n raw : String) (d q : Bool) (werr : WriteErr) (out : List String) :
    dispatch Cmd.list d q werr ⟨FileContent.missing, out⟩ =
      Except.ok ⟨FileContent.missing,
        out ++ [readFailMsg INSTALLED_JSON, "No packages installed."]⟩
    ∧ dispatch Cmd.list d q werr ⟨FileContent.invalid raw, out⟩ =
      Except.ok ⟨FileContent.invalid raw,
        out ++ [readFailMsg INSTALLED_JSON, "No packages installed."]⟩
    ∧ dispatch (Cmd.remove n) d q werr ⟨FileContent.missing, out⟩ =
      Except.ok ⟨FileContent.missing,
        out ++ [readFailMsg INSTALLED_JSON, "No packages installed"]⟩
    ∧ dispatch (Cmd.remove n) d q werr ⟨FileContent.invalid raw, out⟩ =
      Except.ok ⟨FileContent.invalid raw,
        out ++ [readFailMsg INSTALLED_JSON, "No packages installed"]⟩
    ∧ dispatch Cmd.list d q werr ⟨FileContent.valid [], out⟩ =
      Except.ok ⟨FileContent.valid [], out ++ ["No packages installed."]⟩
    ∧ dispatch (Cmd.remove n) d q werr ⟨FileContent.valid [], out⟩ =
      Except.ok ⟨FileContent.valid [], out ++ ["No packages installed"]⟩ := by
  refine ⟨?_, ?_, ?_, ?_, ?_, ?_⟩ <;>
    simp [dispatch, listCmd, removeCmd, read_db, jsonLoadFile, World.print]

end TinyHook
